import Mathlib

/-!
Verification of the dvd2mp4 orchestration script (src/dvd2mp4.py) against its
specification.  The script is shallowly embedded below: external commands are
modelled by their observable results (exit code, stdout, stderr), file bytes by
lists of naturals, and the filesystem side effects by explicit fields of
result structures.  Python truthiness and string helpers are modelled
explicitly where the script relies on them.
-/

/-- Observable result of one external command invocation: the exit status and
the text the process produced on stdout and stderr. -/
structure CmdResult where
  exitCode : Nat
  stdout : String
  stderr : String
  deriving DecidableEq

/-- Python truthiness of a string: nonempty strings are truthy. -/
def strTruthy (s : String) : Bool := s != ""

/-- Python truthiness of an optional string argument (None and "" are falsy). -/
def optTruthy : Option String → Bool
  | none => false
  | some s => strTruthy s

/-- Python str.strip(): drop leading and trailing whitespace characters. -/
def pyStrip (s : String) : String :=
  String.mk (((s.data.dropWhile Char.isWhitespace).reverse.dropWhile Char.isWhitespace).reverse)

/-- Helper for pySplitlines: split a character list at newline characters. -/
def splitLinesAux : List Char → List Char → List String
  | [], cur => [String.mk cur.reverse]
  | '\n' :: rest, cur => String.mk cur.reverse :: splitLinesAux rest []
  | c :: rest, cur => splitLinesAux rest (c :: cur)

/-- Python str.splitlines() for strings with no trailing newline (the script
only applies it to stripped strings): the empty string yields no lines. -/
def pySplitlines (s : String) : List String :=
  if s == "" then [] else splitLinesAux s.data []

/-- Lexicographic comparison of character lists by code point. -/
def charListLe : List Char → List Char → Bool
  | [], _ => true
  | _ :: _, [] => false
  | a :: as, b :: bs => a.toNat < b.toNat || (a == b && charListLe as bs)

/-- Python string comparison (lexicographic by code point), as a Bool. -/
def pyStrLe (a b : String) : Bool := charListLe a.data b.data

/-- Stable insertion used by pySort. -/
def insertLe (x : String) : List String → List String
  | [] => [x]
  | y :: ys => if pyStrLe x y then x :: y :: ys else y :: insertLe x ys

/-- Python sorted() on strings: stable lexicographic sort. -/
def pySort (l : List String) : List String := l.foldr insertLe []

/-- Does the list start with the given sequence? -/
def startsWithSeq {α : Type} [BEq α] : List α → List α → Bool
  | [], _ => true
  | _ :: _, [] => false
  | a :: as, b :: bs => a == b && startsWithSeq as bs

/-- Does the list contain the given sequence contiguously? -/
def containsSeq {α : Type} [BEq α] (pat : List α) : List α → Bool
  | [] => startsWithSeq pat []
  | b :: bs => startsWithSeq pat (b :: bs) || containsSeq pat bs

/-- fnmatch of a file name against the glob pattern used at src/dvd2mp4.py:299
("VTS_", two arbitrary characters, "_", an arbitrary sequence, ".VOB"). -/
def globMatchVTS (s : String) : Bool :=
  match s.data with
  | 'V' :: 'T' :: 'S' :: '_' :: _ :: _ :: '_' :: rest =>
      startsWithSeq ['B', 'O', 'V', '.'] rest.reverse
  | _ => false

/-- Recognizer for one or more digits followed by exactly ".VOB" at the end. -/
def digitsThenDotVOB : List Char → Bool
  | [] => false
  | c :: rest => c.isDigit && (rest == ['.', 'V', 'O', 'B'] || digitsThenDotVOB rest)

/-- Match the regular expression of src/dvd2mp4.py:311 at the current
position: "VTS_", two digits (the captured group extends through here),
"_", digits, ".VOB", end of string. -/
def vtsMatchHere : List Char → Option String
  | 'V' :: 'T' :: 'S' :: '_' :: a :: b :: '_' :: rest =>
      if a.isDigit && b.isDigit && digitsThenDotVOB rest then
        some (String.mk ['V', 'T', 'S', '_', a, b])
      else none
  | _ => none

/-- re.search: try the pattern at each position, leftmost match wins. -/
def vtsSearch : List Char → Option String
  | [] => none
  | c :: rest =>
      match vtsMatchHere (c :: rest) with
      | some g => some g
      | none => vtsSearch rest

/-- Captured title-set group of a file name, as computed by re.search at
src/dvd2mp4.py:311, or none when the name does not match. -/
def vtsKeyOf (s : String) : Option String := vtsSearch s.data

/-- Keys in first-occurrence order, without duplicates (defaultdict keys). -/
def dedupKeys (l : List String) : List String :=
  l.foldl (fun acc k => if acc.contains k then acc else acc ++ [k]) []

/-- Grouping of src/dvd2mp4.py:309-315: files are bucketed by their captured
title-set key (files that do not match the pattern are dropped), and the
groups are emitted sorted by key, each holding its files in input order. -/
def groupByKey (files : List String) : List (String × List String) :=
  (pySort (dedupKeys (files.filterMap vtsKeyOf))).map
    (fun p => (p, files.filter (fun f => vtsKeyOf f == some p)))

/-- Path of the temporary concatenated stream inside the (opaque) temporary
directory, src/dvd2mp4.py:142. -/
def concatVobPath : String := "concat.VOB"

/-- The ffprobe invocation listing audio stream indices, src/dvd2mp4.py:152-163. -/
def ffprobeAudioCmd (path : String) : List String :=
  ["ffprobe", "-v", "error", "-select_streams", "a", "-show_entries",
   "stream=index", "-of", "default=noprint_wrappers=1:nokey=1", path]

/-- The ffprobe invocation reading the display aspect ratio of the first
video stream, src/dvd2mp4.py:183-194. -/
def ffprobeVideoCmd (path : String) : List String :=
  ["ffprobe", "-v", "error", "-select_streams", "v:0", "-show_entries",
   "stream=display_aspect_ratio", "-of", "default=noprint_wrappers=1:nokey=1", path]

/-- The fixed part of the ffmpeg invocation, src/dvd2mp4.py:203-220. -/
def ffmpegBaseCmd (path audioStream : String) : List String :=
  ["ffmpeg", "-y", "-i", path, "-map", "0:v:0", "-map", "0:" ++ audioStream,
   "-c:v", "libx264", "-c:a", "aac", "-b:a", "192k", "-movflags", "+faststart"]

/-- The full ffmpeg invocation: base command, then "-aspect" with its value
when dar is truthy (src/dvd2mp4.py:221-222), then the output file. -/
def ffmpegCmd (path audioStream : String) (dar : Option String) (out : String) : List String :=
  ffmpegBaseCmd path audioStream ++
    (if optTruthy dar then ["-aspect", dar.getD ""] else []) ++ [out]

/-- Result of run_command (src/dvd2mp4.py:40-105) as observed by its caller.
`result` is `Except.ok` with the captured stdout (when capture was requested)
on a zero exit status.  On a non-zero exit status the Python code aborts the
whole process with status 1 — via an uncaught CalledProcessError in verbose
mode (stderr already streamed to the terminal), or via sys.exit(1) in quiet
mode after printing the captured stderr when there is one; both are modelled
as `Except.error e` where `e` is the portion of the tool's stderr that
reaches the caller (`none` when it was sent to DEVNULL). -/
structure RCResult where
  result : Except (Option String) (Option String)
  log : List String

/-- Verbose echo of a command line (the print at src/dvd2mp4.py:74). -/
def cmdEcho (cmd : List String) : String := String.intercalate " " cmd

/-- run_command, src/dvd2mp4.py:40-105, branch for branch: the verbose path
streams output and raises on failure; the quiet path pipes stdout/stderr when
capturing and discards both to DEVNULL otherwise, printing the captured
stderr and exiting 1 on failure. -/
def runCommand (cmd : List String) (r : CmdResult) (verbose capture : Bool) : RCResult :=
  if verbose then
    if capture then
      if r.exitCode == 0 then ⟨Except.ok (some r.stdout), [cmdEcho cmd]⟩
      else ⟨Except.error (some r.stderr), [cmdEcho cmd]⟩
    else
      if r.exitCode == 0 then ⟨Except.ok none, [cmdEcho cmd]⟩
      else ⟨Except.error (some r.stderr), [cmdEcho cmd]⟩
  else
    if r.exitCode == 0 then ⟨Except.ok (if capture then some r.stdout else none), []⟩
    else ⟨Except.error (if capture then some r.stderr else none), []⟩

/-- Behaviour of the external tools for one conversion job: the results the
audio probe, the display-aspect-ratio probe and the transcoder would produce
on this job's concatenated stream. -/
structure JobEnv where
  audioProbe : CmdResult
  darProbe : CmdResult
  transcode : CmdResult
  deriving DecidableEq

/-- How one call of convert_vobs_to_mp4 ends: early return after the
no-audio message (src/dvd2mp4.py:167-171), an uncaught IndexError from
selecting the first line of a whitespace-only probe output
(src/dvd2mp4.py:172), a fatal abort of the whole process from run_command,
or normal completion. -/
inductive JobOutcome where
  | skippedNoAudio
  | indexError
  | fatal
  | success
  deriving DecidableEq

/-- Observable effects of one convert_vobs_to_mp4 call: how it ended, which
tool stderr text reached the caller, the external commands invoked in order,
whether the temporary directory still exists afterwards, whether the output
file was produced, and the progress messages printed. -/
structure JobResult where
  outcome : JobOutcome
  toolErr : Option String
  invoked : List (List String)
  tmpdirPersists : Bool
  outputWritten : Bool
  log : List String
  deriving DecidableEq

/-- Tail of convert_vobs_to_mp4 (src/dvd2mp4.py:203-228): build the ffmpeg
command and run it without capture. -/
def finishTranscode (env : JobEnv) (audioStream : String) (dar : Option String)
    (outputFile : String) (verbose : Bool)
    (prevInvoked : List (List String)) (prevLog : List String) : JobResult :=
  let cmd := ffmpegCmd concatVobPath audioStream dar outputFile
  let rf := runCommand cmd env.transcode verbose false
  match rf.result with
  | Except.error e =>
      ⟨JobOutcome.fatal, e, prevInvoked ++ [cmd], true, false, prevLog ++ rf.log⟩
  | Except.ok _ =>
      ⟨JobOutcome.success, none, prevInvoked ++ [cmd], true, true,
        prevLog ++ rf.log ++ (if verbose then ["created " ++ outputFile] else [])⟩

/-- Body of the with-block of convert_vobs_to_mp4 (src/dvd2mp4.py:141-228),
executed while the temporary directory exists (tmpdirPersists is true in
every branch here; the scope wrapper clears it). -/
def convertBody (env : JobEnv) (vobFiles : List String) (outputFile : String)
    (verbose : Bool) (aspect : Option String) : JobResult :=
  let log0 := if verbose then vobFiles.map (fun vf => "+ " ++ vf) else []
  let cmdA := ffprobeAudioCmd concatVobPath
  let ra := runCommand cmdA env.audioProbe verbose true
  match ra.result with
  | Except.error e => ⟨JobOutcome.fatal, e, [cmdA], true, false, log0 ++ ra.log⟩
  | Except.ok so =>
    let audioStreams := so.getD ""
    if strTruthy audioStreams = false then
      ⟨JobOutcome.skippedNoAudio, none, [cmdA], true, false, log0 ++ ra.log⟩
    else
      match pySplitlines (pyStrip audioStreams) with
      | [] => ⟨JobOutcome.indexError, none, [cmdA], true, false, log0 ++ ra.log⟩
      | a :: _ =>
        if optTruthy aspect then
          finishTranscode env a aspect outputFile verbose [cmdA] (log0 ++ ra.log)
        else
          let cmdV := ffprobeVideoCmd concatVobPath
          let rv := runCommand cmdV env.darProbe verbose true
          match rv.result with
          | Except.error e =>
              ⟨JobOutcome.fatal, e, [cmdA, cmdV], true, false, log0 ++ ra.log ++ rv.log⟩
          | Except.ok so2 =>
            let raw := so2.getD ""
            let dar := if strTruthy raw then some (pyStrip raw) else none
            finishTranscode env a dar outputFile verbose [cmdA, cmdV]
              (log0 ++ ra.log ++ rv.log)

/-- convert_vobs_to_mp4, src/dvd2mp4.py:108-228.  The tempfile
TemporaryDirectory context manager removes the temporary directory on every
exit path of the with-block — normal completion, the early no-audio return,
the uncaught IndexError and the SystemExit raised by run_command — so the
scope wrapper sets tmpdirPersists to false unconditionally. -/
def convertVobsToMp4 (env : JobEnv) (vobFiles : List String) (outputFile : String)
    (verbose : Bool) (aspect : Option String) : JobResult :=
  let r := convertBody env vobFiles outputFile verbose aspect
  { r with tmpdirPersists := false }

/-- Parsed command line arguments, src/dvd2mp4.py:250-281. -/
structure Args where
  input : String
  output : Option String
  split : Bool
  verbose : Bool
  aspect : Option String

/-- Execution environment of one run: which tools shutil.which finds, whether
the input directory exists, the names it contains, and the behaviour of the
external tools for the i-th conversion job started by the run. -/
structure SysEnv where
  ffmpegOnPath : Bool
  ffprobeOnPath : Bool
  inputDirExists : Bool
  listing : List String
  jobEnv : Nat → JobEnv

/-- Observable effects of a whole run: the process exit code, every external
command invoked in order, the output files produced, the per-job results of
the jobs that were started, the tool stderr text reaching the caller of the
failing command (if any), and the printed progress messages. -/
structure RunResult where
  exitCode : Nat
  invoked : List (List String)
  outputs : List String
  jobs : List JobResult
  errText : Option String
  log : List String

/-- A run that stops before starting any job (sys.exit(1) in main). -/
def exitRun (code : Nat) : RunResult := ⟨code, [], [], [], none, []⟩

/-- The split-mode loop of main, src/dvd2mp4.py:315-322: process the sorted
groups in order; a job that returns (success or the no-audio skip) lets the
loop continue, while a job that raises (SystemExit from run_command, or the
IndexError) aborts the whole process with exit status 1. -/
def processGroups (jobEnv : Nat → JobEnv) (verbose : Bool) (aspect : Option String) :
    Nat → List (String × List String) → RunResult
  | _, [] => ⟨0, [], [], [], none, []⟩
  | i, (key, files) :: rest =>
    let sortedFiles := pySort files
    let outputFile := key ++ ".mp4"
    let glog := if verbose then ["group " ++ key ++ " -> " ++ outputFile] else []
    let r := convertVobsToMp4 (jobEnv i) sortedFiles outputFile verbose aspect
    match r.outcome with
    | JobOutcome.success =>
      let rr := processGroups jobEnv verbose aspect (i + 1) rest
      ⟨rr.exitCode, r.invoked ++ rr.invoked, outputFile :: rr.outputs, r :: rr.jobs,
        rr.errText, glog ++ r.log ++ rr.log⟩
    | JobOutcome.skippedNoAudio =>
      let rr := processGroups jobEnv verbose aspect (i + 1) rest
      ⟨rr.exitCode, r.invoked ++ rr.invoked, rr.outputs, r :: rr.jobs,
        rr.errText, glog ++ r.log ++ rr.log⟩
    | JobOutcome.indexError => ⟨1, r.invoked, [], [r], r.toolErr, glog ++ r.log⟩
    | JobOutcome.fatal => ⟨1, r.invoked, [], [r], r.toolErr, glog ++ r.log⟩

/-- sorted(glob.glob(...)) of src/dvd2mp4.py:299: the directory entries
matching the VTS glob pattern, sorted. -/
def collectVobFiles (listing : List String) : List String :=
  pySort (listing.filter globMatchVTS)

/-- Default output name in single-file mode, src/dvd2mp4.py:326-329 (the
basename/abspath normalization of the path is not modelled; no claim
depends on it). -/
def defaultOutput (input : String) : String := input ++ ".mp4"

/-- main, src/dvd2mp4.py:231-338: check both tools on PATH, check the input
directory, collect and sort the matching files, then either run the
split-mode loop over the title-set groups or one combined job. -/
def mainRun (sys : SysEnv) (args : Args) : RunResult :=
  if sys.ffmpegOnPath = false then exitRun 1
  else if sys.ffprobeOnPath = false then exitRun 1
  else if sys.inputDirExists = false then exitRun 1
  else
    let vobFiles := collectVobFiles sys.listing
    if vobFiles.isEmpty then exitRun 1
    else if args.split then
      processGroups sys.jobEnv args.verbose args.aspect 0 (groupByKey vobFiles)
    else
      let outputFile := if optTruthy args.output then args.output.getD ""
        else defaultOutput args.input
      let vlog := if args.verbose then ["input " ++ args.input, "output " ++ outputFile] else []
      let r := convertVobsToMp4 (sys.jobEnv 0) vobFiles outputFile args.verbose args.aspect
      match r.outcome with
      | JobOutcome.success => ⟨0, r.invoked, [outputFile], [r], r.toolErr, vlog ++ r.log⟩
      | JobOutcome.skippedNoAudio => ⟨0, r.invoked, [], [r], r.toolErr, vlog ++ r.log⟩
      | JobOutcome.indexError => ⟨1, r.invoked, [], [r], r.toolErr, vlog ++ r.log⟩
      | JobOutcome.fatal => ⟨1, r.invoked, [], [r], r.toolErr, vlog ++ r.log⟩

/-- The concatenation loop at src/dvd2mp4.py:144-149: copy each fragment's
bytes in order into the single output stream. -/
def concatVob (fragments : List (List Nat)) : List Nat :=
  fragments.foldl (fun acc f => acc ++ f) []

/-- Split a byte stream back at the given fragment sizes. -/
def splitSizes : List Nat → List Nat → List (List Nat)
  | _, [] => []
  | bs, n :: ns => bs.take n :: splitSizes (bs.drop n) ns

/-- The semantic outcome of a run: exit code, commands invoked, output files
produced, and how each started job ended — everything except the printed
text. -/
def semanticOf (r : RunResult) : Nat × List (List String) × List String × List JobOutcome :=
  (r.exitCode, r.invoked, r.outputs, r.jobs.map (fun j => j.outcome))

/-- The semantic part of a job result: outcome, commands invoked, output
produced. -/
def jobSem (r : JobResult) : JobOutcome × List (List String) × Bool :=
  (r.outcome, r.invoked, r.outputWritten)

/-! ### Concrete instances used to evaluate the model -/

/-- Tool behaviour whose audio probe succeeds with empty output (no audio
streams found). -/
def envSkip : JobEnv := ⟨⟨0, "", ""⟩, ⟨0, "", ""⟩, ⟨0, "", ""⟩⟩

/-- Tool behaviour of a fully successful job: two audio streams, a detected
display aspect ratio, and a successful transcode. -/
def envGood : JobEnv := ⟨⟨0, "3\n4", ""⟩, ⟨0, "16:9", ""⟩, ⟨0, "", ""⟩⟩

/-- Tool behaviour whose probes succeed but whose transcode fails with exit
status 1 and the message "boom" on stderr. -/
def envBad : JobEnv := ⟨⟨0, "3\n4", ""⟩, ⟨0, "16:9", ""⟩, ⟨1, "", "boom"⟩⟩

/-- Tool behaviour whose audio probe succeeds with a single newline as its
entire stdout. -/
def envC10 : JobEnv := ⟨⟨0, "\n", ""⟩, ⟨0, "", ""⟩, ⟨0, "", ""⟩⟩

/-- Tool behaviour whose audio probe finds a stream but whose aspect probe
prints only a newline (no display_aspect_ratio value). -/
def envDarEmpty : JobEnv := ⟨⟨0, "3", ""⟩, ⟨0, "\n", ""⟩, ⟨0, "", ""⟩⟩

/-- A directory with one VOB file, tools present, no-audio behaviour. -/
def sysC2 : SysEnv := ⟨true, true, true, ["VTS_01_1.VOB"], fun _ => envSkip⟩

/-- Single-file mode, quiet, no overrides. -/
def argsC2 : Args := ⟨"VIDEO_TS", none, false, false, none⟩

/-- A directory with two title sets, tools present, failing transcoder. -/
def sysC4 : SysEnv := ⟨true, true, true, ["VTS_01_1.VOB", "VTS_02_1.VOB"], fun _ => envBad⟩

/-- Split mode, quiet, no overrides. -/
def argsC4 : Args := ⟨"VIDEO_TS", none, true, false, none⟩

/-- A directory with no matching files. -/
def sysC5 : SysEnv := ⟨true, true, true, ["README.txt", "notes.VOB.bak"], fun _ => envGood⟩

/-- A directory listing the three example files in arbitrary (unsorted)
order, with no-audio tool behaviour so that every split-mode job is started. -/
def sysC8 : SysEnv :=
  ⟨true, true, true, ["VTS_02_1.VOB", "VTS_01_1.VOB", "VTS_01_2.VOB"], fun _ => envSkip⟩

/-- Split mode, quiet. -/
def argsC8split : Args := ⟨"VIDEO_TS", none, true, false, none⟩

/-! ### Helper lemmas about run_command -/

theorem runCommand_ok_capture (cmd : List String) (r : CmdResult) (v : Bool)
    (h : r.exitCode = 0) : (runCommand cmd r v true).result = Except.ok (some r.stdout) := by
  cases v <;> simp [runCommand, h]

theorem runCommand_fail_capture (cmd : List String) (r : CmdResult) (v : Bool)
    (h : r.exitCode ≠ 0) : (runCommand cmd r v true).result = Except.error (some r.stderr) := by
  cases v <;> simp [runCommand, h]

theorem runCommand_ok_plain (cmd : List String) (r : CmdResult) (v : Bool)
    (h : r.exitCode = 0) : (runCommand cmd r v false).result = Except.ok none := by
  cases v <;> simp [runCommand, h]

theorem runCommand_fail_plain (cmd : List String) (r : CmdResult) (v : Bool)
    (h : r.exitCode ≠ 0) :
    (runCommand cmd r v false).result = Except.error (if v then some r.stderr else none) := by
  cases v <;> simp [runCommand, h]

/-! ### Scenario lemmas for convert_vobs_to_mp4 -/

theorem finishTranscode_fields (env : JobEnv) (a : String) (dar : Option String)
    (o : String) (v : Bool) (pi pl) :
    (finishTranscode env a dar o v pi pl).outcome
        = (if env.transcode.exitCode == 0 then JobOutcome.success else JobOutcome.fatal) ∧
    (finishTranscode env a dar o v pi pl).invoked = pi ++ [ffmpegCmd concatVobPath a dar o] ∧
    (finishTranscode env a dar o v pi pl).outputWritten = (env.transcode.exitCode == 0) ∧
    (finishTranscode env a dar o v pi pl).toolErr
        = (if env.transcode.exitCode == 0 then none
           else if v then some env.transcode.stderr else none) ∧
    (finishTranscode env a dar o v pi pl).tmpdirPersists = true := by
  by_cases h : env.transcode.exitCode = 0
  · simp [finishTranscode, runCommand_ok_plain _ _ _ h, h]
  · simp [finishTranscode, runCommand_fail_plain _ _ _ h, h]

theorem convert_audioFail (env : JobEnv) (f : List String) (o : String) (v : Bool)
    (a : Option String) (h : env.audioProbe.exitCode ≠ 0) :
    (convertVobsToMp4 env f o v a).outcome = JobOutcome.fatal ∧
    (convertVobsToMp4 env f o v a).toolErr = some env.audioProbe.stderr ∧
    (convertVobsToMp4 env f o v a).invoked = [ffprobeAudioCmd concatVobPath] ∧
    (convertVobsToMp4 env f o v a).outputWritten = false := by
  simp [convertVobsToMp4, convertBody, runCommand_fail_capture _ _ _ h]

theorem convert_noAudio (env : JobEnv) (f : List String) (o : String) (v : Bool)
    (a : Option String) (h0 : env.audioProbe.exitCode = 0)
    (h1 : strTruthy env.audioProbe.stdout = false) :
    (convertVobsToMp4 env f o v a).outcome = JobOutcome.skippedNoAudio ∧
    (convertVobsToMp4 env f o v a).toolErr = none ∧
    (convertVobsToMp4 env f o v a).invoked = [ffprobeAudioCmd concatVobPath] ∧
    (convertVobsToMp4 env f o v a).outputWritten = false := by
  simp [convertVobsToMp4, convertBody, runCommand_ok_capture _ _ _ h0, h1]

theorem convert_whitespaceAudio (env : JobEnv) (f : List String) (o : String) (v : Bool)
    (a : Option String) (h0 : env.audioProbe.exitCode = 0)
    (h1 : strTruthy env.audioProbe.stdout = true)
    (h2 : pySplitlines (pyStrip env.audioProbe.stdout) = []) :
    (convertVobsToMp4 env f o v a).outcome = JobOutcome.indexError ∧
    (convertVobsToMp4 env f o v a).invoked = [ffprobeAudioCmd concatVobPath] ∧
    (convertVobsToMp4 env f o v a).outputWritten = false := by
  simp [convertVobsToMp4, convertBody, runCommand_ok_capture _ _ _ h0, h1, h2]

theorem convert_aspectGiven (env : JobEnv) (f : List String) (o : String) (v : Bool)
    (aspect : Option String) (hd : String) (tl : List String)
    (h0 : env.audioProbe.exitCode = 0)
    (h1 : strTruthy env.audioProbe.stdout = true)
    (h2 : pySplitlines (pyStrip env.audioProbe.stdout) = hd :: tl)
    (h3 : optTruthy aspect = true) :
    convertVobsToMp4 env f o v aspect =
      { finishTranscode env hd aspect o v [ffprobeAudioCmd concatVobPath]
          ((if v then f.map (fun vf => "+ " ++ vf) else []) ++
            (runCommand (ffprobeAudioCmd concatVobPath) env.audioProbe v true).log)
        with tmpdirPersists := false } := by
  have hres := runCommand_ok_capture (ffprobeAudioCmd concatVobPath) env.audioProbe v h0
  simp only [convertVobsToMp4, convertBody]
  rw [hres]
  simp [h1, h2, h3]

theorem convert_darFail (env : JobEnv) (f : List String) (o : String) (v : Bool)
    (aspect : Option String) (hd : String) (tl : List String)
    (h0 : env.audioProbe.exitCode = 0)
    (h1 : strTruthy env.audioProbe.stdout = true)
    (h2 : pySplitlines (pyStrip env.audioProbe.stdout) = hd :: tl)
    (h3 : optTruthy aspect = false)
    (h4 : env.darProbe.exitCode ≠ 0) :
    (convertVobsToMp4 env f o v aspect).outcome = JobOutcome.fatal ∧
    (convertVobsToMp4 env f o v aspect).toolErr = some env.darProbe.stderr ∧
    (convertVobsToMp4 env f o v aspect).invoked
      = [ffprobeAudioCmd concatVobPath, ffprobeVideoCmd concatVobPath] ∧
    (convertVobsToMp4 env f o v aspect).outputWritten = false := by
  have hres := runCommand_ok_capture (ffprobeAudioCmd concatVobPath) env.audioProbe v h0
  have hres2 := runCommand_fail_capture (ffprobeVideoCmd concatVobPath) env.darProbe v h4
  simp only [convertVobsToMp4, convertBody]
  rw [hres]
  simp [h1, h2, h3, hres2]

theorem convert_darOk (env : JobEnv) (f : List String) (o : String) (v : Bool)
    (aspect : Option String) (hd : String) (tl : List String)
    (h0 : env.audioProbe.exitCode = 0)
    (h1 : strTruthy env.audioProbe.stdout = true)
    (h2 : pySplitlines (pyStrip env.audioProbe.stdout) = hd :: tl)
    (h3 : optTruthy aspect = false)
    (h4 : env.darProbe.exitCode = 0) :
    convertVobsToMp4 env f o v aspect =
      { finishTranscode env hd
          (if strTruthy env.darProbe.stdout then some (pyStrip env.darProbe.stdout) else none)
          o v [ffprobeAudioCmd concatVobPath, ffprobeVideoCmd concatVobPath]
          ((if v then f.map (fun vf => "+ " ++ vf) else []) ++
            (runCommand (ffprobeAudioCmd concatVobPath) env.audioProbe v true).log ++
            (runCommand (ffprobeVideoCmd concatVobPath) env.darProbe v true).log)
        with tmpdirPersists := false } := by
  have hres := runCommand_ok_capture (ffprobeAudioCmd concatVobPath) env.audioProbe v h0
  have hres2 := runCommand_ok_capture (ffprobeVideoCmd concatVobPath) env.darProbe v h4
  simp only [convertVobsToMp4, convertBody]
  rw [hres]
  simp [h1, h2, h3]
  rw [hres2]
  simp
theorem startsWithSeq_self_append {α : Type} [BEq α] [LawfulBEq α] (pat suf : List α) :
    startsWithSeq pat (pat ++ suf) = true := by
  induction pat with
  | nil => simp [startsWithSeq]
  | cons a as ih => simp [startsWithSeq, ih]

theorem containsSeq_append {α : Type} [BEq α] [LawfulBEq α] (pre pat suf : List α) :
    containsSeq pat (pre ++ (pat ++ suf)) = true := by
  induction pre with
  | nil =>
    simp only [List.nil_append]
    cases pat with
    | nil => cases suf <;> simp [containsSeq, startsWithSeq]
    | cons p ps =>
      simp [containsSeq]
      left
      exact startsWithSeq_self_append (p :: ps) suf
  | cons x xs ih => simp [containsSeq, ih]

theorem foldl_append_eq_flatten (fs : List (List Nat)) (acc : List Nat) :
    fs.foldl (fun a f => a ++ f) acc = acc ++ fs.flatten := by
  induction fs generalizing acc with
  | nil => simp
  | cons f fs ih => simp [List.foldl_cons, ih]

theorem splitSizes_flatten (fs : List (List Nat)) :
    splitSizes fs.flatten (fs.map List.length) = fs := by
  induction fs with
  | nil => simp [splitSizes]
  | cons f fs ih =>
    simp only [List.flatten_cons, List.map_cons, splitSizes]
    rw [List.take_left, List.drop_left, ih]

theorem finishTranscode_outcome (env : JobEnv) (a : String) (dar : Option String)
    (o : String) (v : Bool) (pi pl) :
    (finishTranscode env a dar o v pi pl).outcome
      = (if env.transcode.exitCode == 0 then JobOutcome.success else JobOutcome.fatal) :=
  (finishTranscode_fields env a dar o v pi pl).1

theorem finishTranscode_invoked (env : JobEnv) (a : String) (dar : Option String)
    (o : String) (v : Bool) (pi pl) :
    (finishTranscode env a dar o v pi pl).invoked = pi ++ [ffmpegCmd concatVobPath a dar o] :=
  (finishTranscode_fields env a dar o v pi pl).2.1

theorem finishTranscode_outputWritten (env : JobEnv) (a : String) (dar : Option String)
    (o : String) (v : Bool) (pi pl) :
    (finishTranscode env a dar o v pi pl).outputWritten = (env.transcode.exitCode == 0) :=
  (finishTranscode_fields env a dar o v pi pl).2.2.1

theorem finishTranscode_toolErr (env : JobEnv) (a : String) (dar : Option String)
    (o : String) (v : Bool) (pi pl) :
    (finishTranscode env a dar o v pi pl).toolErr
      = (if env.transcode.exitCode == 0 then none
         else if v then some env.transcode.stderr else none) :=
  (finishTranscode_fields env a dar o v pi pl).2.2.2.1
theorem convert_jobSem_verbose (env : JobEnv) (f : List String) (o : String)
    (a : Option String) (v w : Bool) :
    jobSem (convertVobsToMp4 env f o v a) = jobSem (convertVobsToMp4 env f o w a) := by
  by_cases h0 : env.audioProbe.exitCode = 0
  · by_cases h1 : strTruthy env.audioProbe.stdout = true
    · cases hL : pySplitlines (pyStrip env.audioProbe.stdout) with
      | nil =>
        have hv := convert_whitespaceAudio env f o v a h0 h1 hL
        have hw := convert_whitespaceAudio env f o w a h0 h1 hL
        simp [jobSem, hv.1, hv.2.1, hv.2.2, hw.1, hw.2.1, hw.2.2]
      | cons hd tl =>
        by_cases h3 : optTruthy a = true
        · rw [convert_aspectGiven env f o v a hd tl h0 h1 hL h3,
            convert_aspectGiven env f o w a hd tl h0 h1 hL h3]
          simp [jobSem, finishTranscode_outcome, finishTranscode_invoked,
            finishTranscode_outputWritten]
        · have h3' : optTruthy a = false := by simpa using h3
          by_cases h4 : env.darProbe.exitCode = 0
          · rw [convert_darOk env f o v a hd tl h0 h1 hL h3' h4,
              convert_darOk env f o w a hd tl h0 h1 hL h3' h4]
            simp [jobSem, finishTranscode_outcome, finishTranscode_invoked,
              finishTranscode_outputWritten]
          · have hv := convert_darFail env f o v a hd tl h0 h1 hL h3' h4
            have hw := convert_darFail env f o w a hd tl h0 h1 hL h3' h4
            simp [jobSem, hv.1, hv.2.2.1, hv.2.2.2, hw.1, hw.2.2.1, hw.2.2.2]
    · have h1' : strTruthy env.audioProbe.stdout = false := by simpa using h1
      have hv := convert_noAudio env f o v a h0 h1'
      have hw := convert_noAudio env f o w a h0 h1'
      simp [jobSem, hv.1, hv.2.2.1, hv.2.2.2, hw.1, hw.2.2.1, hw.2.2.2]
  · have hv := convert_audioFail env f o v a h0
    have hw := convert_audioFail env f o w a h0
    simp [jobSem, hv.1, hv.2.2.1, hv.2.2.2, hw.1, hw.2.2.1, hw.2.2.2]

theorem jobSem_outcome_eq {r r' : JobResult} (h : jobSem r = jobSem r') :
    r.outcome = r'.outcome := congrArg (fun p => p.1) h

theorem jobSem_invoked_eq {r r' : JobResult} (h : jobSem r = jobSem r') :
    r.invoked = r'.invoked := congrArg (fun p => p.2.1) h

theorem sem_exit_eq {r r' : RunResult} (h : semanticOf r = semanticOf r') :
    r.exitCode = r'.exitCode := congrArg (fun p => p.1) h

theorem sem_invoked_eq {r r' : RunResult} (h : semanticOf r = semanticOf r') :
    r.invoked = r'.invoked := congrArg (fun p => p.2.1) h

theorem sem_outputs_eq {r r' : RunResult} (h : semanticOf r = semanticOf r') :
    r.outputs = r'.outputs := congrArg (fun p => p.2.2.1) h

theorem sem_jobs_eq {r r' : RunResult} (h : semanticOf r = semanticOf r') :
    r.jobs.map (fun j => j.outcome) = r'.jobs.map (fun j => j.outcome) :=
  congrArg (fun p => p.2.2.2) h
theorem processGroups_sem_verbose (jobEnv : Nat → JobEnv) (a : Option String)
    (v w : Bool) (gs : List (String × List String)) (i : Nat) :
    semanticOf (processGroups jobEnv v a i gs) = semanticOf (processGroups jobEnv w a i gs) := by
  induction gs generalizing i with
  | nil => rfl
  | cons g rest ih =>
    obtain ⟨key, files⟩ := g
    have hjob := convert_jobSem_verbose (jobEnv i) (pySort files) (key ++ ".mp4") a v w
    have ho := jobSem_outcome_eq hjob
    have hi := jobSem_invoked_eq hjob
    have hrr := ih (i + 1)
    have hex := sem_exit_eq hrr
    have hin := sem_invoked_eq hrr
    have hout := sem_outputs_eq hrr
    have hjs := sem_jobs_eq hrr
    simp only [processGroups]
    cases hc : (convertVobsToMp4 (jobEnv i) (pySort files) (key ++ ".mp4") v a).outcome with
    | success =>
      rw [hc] at ho
      rw [← ho]
      simp [semanticOf, hi, hex, hin, hout, hjs, hc, ← ho]
    | skippedNoAudio =>
      rw [hc] at ho
      rw [← ho]
      simp [semanticOf, hi, hex, hin, hout, hjs, hc, ← ho]
    | indexError =>
      rw [hc] at ho
      rw [← ho]
      simp [semanticOf, hi, hc, ← ho]
    | fatal =>
      rw [hc] at ho
      rw [← ho]
      simp [semanticOf, hi, hc, ← ho]
theorem mainRun_sem_verbose (sys : SysEnv) (args : Args) (v w : Bool) :
    semanticOf (mainRun sys { args with verbose := v })
      = semanticOf (mainRun sys { args with verbose := w }) := by
  simp only [mainRun]
  by_cases hf : sys.ffmpegOnPath = false
  · simp [hf]
  · simp only [hf]
    by_cases hp : sys.ffprobeOnPath = false
    · simp [hp]
    · simp only [hp]
      by_cases hd : sys.inputDirExists = false
      · simp [hd]
      · simp only [hd]
        by_cases he : (collectVobFiles sys.listing).isEmpty
        · simp [he]
        · simp only [he]
          by_cases hs : args.split
          · simp only [hs]
            exact processGroups_sem_verbose sys.jobEnv args.aspect v w
              (groupByKey (collectVobFiles sys.listing)) 0
          · simp only [hs]
            have hjob := convert_jobSem_verbose (sys.jobEnv 0) (collectVobFiles sys.listing)
              (if optTruthy args.output then args.output.getD "" else defaultOutput args.input)
              args.aspect v w
            have ho := jobSem_outcome_eq hjob
            have hi := jobSem_invoked_eq hjob
            cases hc : (convertVobsToMp4 (sys.jobEnv 0) (collectVobFiles sys.listing)
                (if optTruthy args.output then args.output.getD ""
                 else defaultOutput args.input) v args.aspect).outcome with
            | success =>
              rw [hc] at ho
              simp [hc, ← ho, semanticOf, hi]
            | skippedNoAudio =>
              rw [hc] at ho
              simp [hc, ← ho, semanticOf, hi]
            | indexError =>
              rw [hc] at ho
              simp [hc, ← ho, semanticOf, hi]
            | fatal =>
              rw [hc] at ho
              simp [hc, ← ho, semanticOf, hi]

theorem finishTranscode_tmpdir (env : JobEnv) (a : String) (dar : Option String)
    (o : String) (v : Bool) (pi pl) :
    (finishTranscode env a dar o v pi pl).tmpdirPersists = true :=
  (finishTranscode_fields env a dar o v pi pl).2.2.2.2
/-- C1: for every ordered list of fragment byte streams, the temporary
concatenated stream written by convert_vobs_to_mp4 has byte length equal to
the sum of the fragments' byte lengths, its content equals the fragments'
bytes in the given order, and splitting the concatenation at the original
fragment boundaries reproduces each fragment exactly. -/
theorem concat_stream_exact (fs : List (List Nat)) :
    (concatVob fs).length = (fs.map List.length).sum ∧
    concatVob fs = fs.flatten ∧
    splitSizes (concatVob fs) (fs.map List.length) = fs := by
  have hj : concatVob fs = fs.flatten := foldl_append_eq_flatten fs []
  refine ⟨?_, hj, ?_⟩
  · rw [hj]
    exact List.length_flatten fs
  · rw [hj]
    exact splitSizes_flatten fs

/-- C10: a prober stdout of a single newline is truthy, so the no-audio
branch is not taken, yet stripping and splitting it yields no lines, so
selecting the first line raises IndexError: the first-audio-stream selection
is not total over prober outputs. -/
theorem whitespace_probe_output_not_total :
    strTruthy "\n" = true ∧
    pySplitlines (pyStrip "\n") = [] ∧
    (convertVobsToMp4 envC10 ["VTS_01_1.VOB"] "out.mp4" false none).outcome
      = JobOutcome.indexError ∧
    (convertVobsToMp4 envC10 ["VTS_01_1.VOB"] "out.mp4" false none).outcome
      ≠ JobOutcome.skippedNoAudio := by decide

/-- C8: for a directory containing exactly VTS_01_1.VOB, VTS_01_2.VOB and
VTS_02_1.VOB (listed in arbitrary order), non-split mode collects all three
files sorted into one job, and split mode produces exactly the two groups
VTS_01 (2 files) and VTS_02 (1 file) in sorted order. -/
theorem vts_collect_and_grouping_example :
    collectVobFiles sysC8.listing = ["VTS_01_1.VOB", "VTS_01_2.VOB", "VTS_02_1.VOB"] ∧
    groupByKey (collectVobFiles sysC8.listing)
      = [("VTS_01", ["VTS_01_1.VOB", "VTS_01_2.VOB"]), ("VTS_02", ["VTS_02_1.VOB"])] ∧
    (mainRun sysC8 argsC2).jobs.length = 1 ∧
    (mainRun sysC8 argsC8split).jobs.length = 2 := by decide

/-- C9: for fixed inputs, runs with the verbose flag on and off have the
same semantic outcome: the same exit code, the same external commands
invoked, the same output files, and the same per-job outcomes (skips
included); verbose only changes the printed text. -/
theorem verbose_flag_no_semantic_effect (sys : SysEnv) (args : Args) :
    semanticOf (mainRun sys { args with verbose := true })
      = semanticOf (mainRun sys { args with verbose := false }) :=
  mainRun_sem_verbose sys args true false
/-- C3: the temporary directory holding the concatenated stream exists while
the with-block body runs, and does not persist after convert_vobs_to_mp4
completes, whatever the job's outcome (prober failure, missing-audio skip,
IndexError, transcoder failure or success). -/
theorem tmpdir_removed_after_job (env : JobEnv) (f : List String) (o : String)
    (v : Bool) (a : Option String) :
    (convertBody env f o v a).tmpdirPersists = true ∧
    (convertVobsToMp4 env f o v a).tmpdirPersists = false := by
  constructor
  · simp only [convertBody]
    cases (runCommand (ffprobeAudioCmd concatVobPath) env.audioProbe v true).result with
    | error e => rfl
    | ok so =>
      simp only
      by_cases h1 : strTruthy (so.getD "") = false
      · simp [h1]
      · simp only [h1, if_false]
        cases pySplitlines (pyStrip (so.getD "")) with
        | nil => simp [h1]
        | cons hd tl =>
          simp only [h1]
          by_cases h3 : optTruthy a
          · simp [h3, finishTranscode_tmpdir]
          · simp only [h3, if_false]
            cases (runCommand (ffprobeVideoCmd concatVobPath) env.darProbe v true).result with
            | error e => simp [h1]
            | ok so2 => simp [h1, finishTranscode_tmpdir]
  · rfl
/-- C2 counterexample: in single-file mode, when the prober reports no audio
streams, the process exits 0, not 1 — the job's early return is not a fatal
outcome — although no transcoder invocation is attempted. -/
theorem single_mode_no_audio_exits_zero :
    (mainRun sysC2 argsC2).exitCode = 0 ∧
    (mainRun sysC2 argsC2).exitCode ≠ 1 ∧
    (mainRun sysC2 argsC2).invoked.all (fun c => c.head? != some "ffmpeg") = true := by decide

/-- C2 (amended): whenever the prober reports no audio streams (exit status
0, empty stdout), no transcoder invocation is attempted for that job; in
split mode the job is skipped and the remaining groups continue; in
single-file mode the single job is likewise skipped and the run completes
with exit code 0. -/
theorem no_audio_skips_job_run_continues
    (env : JobEnv) (f : List String) (o : String) (v : Bool) (a : Option String)
    (jobEnv : Nat → JobEnv) (i : Nat) (key : String) (gfiles : List String)
    (rest : List (String × List String)) (sys : SysEnv) (args : Args)
    (h1 : env.audioProbe.exitCode = 0)
    (h2 : strTruthy env.audioProbe.stdout = false)
    (hj : jobEnv i = env)
    (hs0 : sys.jobEnv 0 = env)
    (hff : sys.ffmpegOnPath = true) (hfp : sys.ffprobeOnPath = true)
    (hdir : sys.inputDirExists = true)
    (hlst : (collectVobFiles sys.listing).isEmpty = false)
    (hsplit : args.split = false) :
    (convertVobsToMp4 env f o v a).outcome = JobOutcome.skippedNoAudio ∧
    (convertVobsToMp4 env f o v a).invoked.all (fun c => c.head? != some "ffmpeg") = true ∧
    (processGroups jobEnv v a i ((key, gfiles) :: rest)).exitCode
      = (processGroups jobEnv v a (i + 1) rest).exitCode ∧
    (processGroups jobEnv v a i ((key, gfiles) :: rest)).jobs.length
      = (processGroups jobEnv v a (i + 1) rest).jobs.length + 1 ∧
    (mainRun sys args).exitCode = 0 := by
  have hc := convert_noAudio env f o v a h1 h2
  have hc2 := convert_noAudio env (pySort gfiles) (key ++ ".mp4") v a h1 h2
  have hc3 := convert_noAudio env (collectVobFiles sys.listing)
    (if optTruthy args.output then args.output.getD "" else defaultOutput args.input)
    args.verbose args.aspect h1 h2
  refine ⟨hc.1, ?_, ?_, ?_, ?_⟩
  · rw [hc.2.2.1]
    decide
  · simp only [processGroups, hj, hc2.1]
  · simp only [processGroups, hj, hc2.1]
    simp
  · simp only [mainRun, hff, hfp, hdir, hlst, hsplit, hs0]
    simp [hc3.1, hlst]

/-- Witness for the amended C2 theorem at a concrete no-audio run. -/
theorem no_audio_skips_job_run_continues_witness :
    envSkip.audioProbe.exitCode = 0 ∧
    strTruthy envSkip.audioProbe.stdout = false ∧
    ((convertVobsToMp4 envSkip ["VTS_01_1.VOB"] "out.mp4" false none).outcome
        = JobOutcome.skippedNoAudio ∧
      (convertVobsToMp4 envSkip ["VTS_01_1.VOB"] "out.mp4" false none).invoked.all
        (fun c => c.head? != some "ffmpeg") = true ∧
      (processGroups (fun _ => envSkip) false none 0 [("VTS_01", ["VTS_01_1.VOB"])]).exitCode
        = (processGroups (fun _ => envSkip) false none 1 []).exitCode ∧
      (processGroups (fun _ => envSkip) false none 0 [("VTS_01", ["VTS_01_1.VOB"])]).jobs.length
        = (processGroups (fun _ => envSkip) false none 1 []).jobs.length + 1 ∧
      (mainRun sysC2 argsC2).exitCode = 0) :=
  ⟨by decide, by decide,
    no_audio_skips_job_run_continues envSkip ["VTS_01_1.VOB"] "out.mp4" false none
      (fun _ => envSkip) 0 "VTS_01" ["VTS_01_1.VOB"] [] sysC2 argsC2
      (by decide) (by decide) rfl rfl rfl rfl rfl (by decide) rfl⟩

/-- C5: for an input directory with zero files matching the video-object
naming pattern, the run exits 1 and invokes no subprocess at all (neither
prober nor transcoder). -/
theorem no_matching_files_exit_one (sys : SysEnv) (args : Args)
    (h : sys.listing.filter globMatchVTS = []) :
    (mainRun sys args).exitCode = 1 ∧ (mainRun sys args).invoked = [] := by
  have hempty : collectVobFiles sys.listing = [] := by
    rw [collectVobFiles, h]
    rfl
  simp only [mainRun]
  by_cases hf : sys.ffmpegOnPath = false
  · simp [hf, exitRun]
  · simp only [hf, if_false]
    by_cases hp : sys.ffprobeOnPath = false
    · simp [hp, exitRun]
    · simp only [hp, if_false]
      by_cases hd : sys.inputDirExists = false
      · simp [hd, exitRun]
      · simp only [hd, if_false]
        simp [hempty, exitRun]

/-- Witness for the C5 theorem at a directory with no matching files. -/
theorem no_matching_files_exit_one_witness :
    sysC5.listing.filter globMatchVTS = [] ∧
    ((mainRun sysC5 argsC2).exitCode = 1 ∧ (mainRun sysC5 argsC2).invoked = []) :=
  ⟨by decide, no_matching_files_exit_one sysC5 argsC2 (by decide)⟩
/-- C4 counterexample: in quiet (non-verbose) mode the failing transcoder's
stderr is sent to DEVNULL, so its error text "boom" never reaches the
caller, although the run does abort with exit code 1 after the first job. -/
theorem quiet_transcoder_failure_stderr_dropped :
    (mainRun sysC4 argsC4).exitCode = 1 ∧
    (mainRun sysC4 argsC4).jobs.length = 1 ∧
    envBad.transcode.stderr = "boom" ∧
    (mainRun sysC4 argsC4).errText = none := by decide

/-- C4 (amended): if the transcoder returns a non-zero exit status for a
job, the whole run aborts immediately — no further jobs are processed — with
process exit code 1; the failing tool's error text is surfaced to the caller
only in verbose mode (streamed stderr), while in quiet mode the transcoder's
stderr is discarded and only a generic failure message is printed. -/
theorem transcoder_failure_aborts_run
    (jobEnv : Nat → JobEnv) (v : Bool) (a : Option String) (i : Nat)
    (key : String) (files : List String) (rest : List (String × List String))
    (h1 : (jobEnv i).audioProbe.exitCode = 0)
    (h2 : strTruthy (jobEnv i).audioProbe.stdout = true)
    (h3 : (pySplitlines (pyStrip (jobEnv i).audioProbe.stdout)).isEmpty = false)
    (h4 : optTruthy a = true ∨ (jobEnv i).darProbe.exitCode = 0)
    (h5 : (jobEnv i).transcode.exitCode ≠ 0) :
    (processGroups jobEnv v a i ((key, files) :: rest)).exitCode = 1 ∧
    (processGroups jobEnv v a i ((key, files) :: rest)).jobs.length = 1 ∧
    (processGroups jobEnv v a i ((key, files) :: rest)).errText
      = (if v then some (jobEnv i).transcode.stderr else none) := by
  have hne : pySplitlines (pyStrip (jobEnv i).audioProbe.stdout) ≠ [] := by
    intro hnil
    rw [hnil] at h3
    simp at h3
  obtain ⟨hd, tl, hL⟩ := List.exists_cons_of_ne_nil hne
  have hbeq : ((jobEnv i).transcode.exitCode == 0) = false := beq_eq_false_iff_ne.mpr h5
  by_cases hopt : optTruthy a = true
  · simp only [processGroups,
      convert_aspectGiven (jobEnv i) (pySort files) (key ++ ".mp4") v a hd tl h1 h2 hL hopt,
      finishTranscode_outcome, finishTranscode_toolErr, hbeq]
    simp
  · have h3' : optTruthy a = false := by simpa using hopt
    have hdar : (jobEnv i).darProbe.exitCode = 0 := by
      cases h4 with
      | inl ha => exact absurd ha hopt
      | inr hb => exact hb
    simp only [processGroups,
      convert_darOk (jobEnv i) (pySort files) (key ++ ".mp4") v a hd tl h1 h2 hL h3' hdar,
      finishTranscode_outcome, finishTranscode_toolErr, hbeq]
    simp

/-- Witness for the amended C4 theorem at a concrete failing transcode. -/
theorem transcoder_failure_aborts_run_witness :
    envBad.audioProbe.exitCode = 0 ∧
    strTruthy envBad.audioProbe.stdout = true ∧
    envBad.transcode.exitCode ≠ 0 ∧
    ((processGroups (fun _ => envBad) false none 0
        [("VTS_01", ["VTS_01_1.VOB"]), ("VTS_02", ["VTS_02_1.VOB"])]).exitCode = 1 ∧
      (processGroups (fun _ => envBad) false none 0
        [("VTS_01", ["VTS_01_1.VOB"]), ("VTS_02", ["VTS_02_1.VOB"])]).jobs.length = 1 ∧
      (processGroups (fun _ => envBad) false none 0
          [("VTS_01", ["VTS_01_1.VOB"]), ("VTS_02", ["VTS_02_1.VOB"])]).errText
        = (if false then some ((fun _ => envBad) 0).transcode.stderr else none)) :=
  ⟨by decide, by decide, by decide,
    transcoder_failure_aborts_run (fun _ => envBad) false none 0 "VTS_01" ["VTS_01_1.VOB"]
      [("VTS_02", ["VTS_02_1.VOB"])] (by decide) (by decide) (by decide)
      (Or.inr (by decide)) (by decide)⟩
theorem ffmpegCmd_head (p a : String) (dar : Option String) (o : String) :
    (ffmpegCmd p a dar o).head? = some "ffmpeg" := by
  simp [ffmpegCmd, ffmpegBaseCmd]

/-- C6: whenever an explicit non-empty aspect ratio is supplied, the
display-aspect-ratio probe is never invoked, and any transcoder invocation
of the job carries exactly the supplied value behind the -aspect flag. -/
theorem explicit_aspect_exact_and_no_dar_probe
    (env : JobEnv) (f : List String) (o : String) (v : Bool) (s : String)
    (hs : s ≠ "") :
    ffprobeVideoCmd concatVobPath ∉ (convertVobsToMp4 env f o v (some s)).invoked ∧
    ((convertVobsToMp4 env f o v (some s)).invoked.all
      (fun c => (c.head? != some "ffmpeg") || containsSeq ["-aspect", s] c)) = true := by
  have hvA : ffprobeVideoCmd concatVobPath ≠ ffprobeAudioCmd concatVobPath := by decide
  have hallA : (((ffprobeAudioCmd concatVobPath).head? != some "ffmpeg")
      || containsSeq ["-aspect", s] (ffprobeAudioCmd concatVobPath)) = true := by
    have : ((ffprobeAudioCmd concatVobPath).head? != some "ffmpeg") = true := by decide
    rw [this, Bool.true_or]
  have hopt : optTruthy (some s) = true := by
    simp [optTruthy, strTruthy, hs]
  by_cases h0 : env.audioProbe.exitCode = 0
  · by_cases h1 : strTruthy env.audioProbe.stdout = true
    · cases hL : pySplitlines (pyStrip env.audioProbe.stdout) with
      | nil =>
        have hc := convert_whitespaceAudio env f o v (some s) h0 h1 hL
        rw [hc.2.1]
        refine ⟨by simp [hvA], ?_⟩
        simp [List.all_cons, hallA]
      | cons hd tl =>
        rw [convert_aspectGiven env f o v (some s) hd tl h0 h1 hL hopt]
        have hInv := finishTranscode_invoked env hd (some s) o v [ffprobeAudioCmd concatVobPath]
          ((if v then f.map (fun vf => "+ " ++ vf) else []) ++
            (runCommand (ffprobeAudioCmd concatVobPath) env.audioProbe v true).log)
        have hffeq : ffmpegCmd concatVobPath hd (some s) o
            = ffmpegBaseCmd concatVobPath hd ++ (["-aspect", s] ++ [o]) := by
          simp [ffmpegCmd, hopt]
        have hvF : ffprobeVideoCmd concatVobPath ≠ ffmpegCmd concatVobPath hd (some s) o := by
          intro h
          have hh := congrArg List.head? h
          rw [ffmpegCmd_head] at hh
          simp [ffprobeVideoCmd] at hh
        have hcs : containsSeq ["-aspect", s] (ffmpegCmd concatVobPath hd (some s) o) = true := by
          rw [hffeq]
          exact containsSeq_append _ _ _
        constructor
        · show ffprobeVideoCmd concatVobPath ∉
            ({ finishTranscode env hd (some s) o v [ffprobeAudioCmd concatVobPath]
                ((if v then f.map (fun vf => "+ " ++ vf) else []) ++
                  (runCommand (ffprobeAudioCmd concatVobPath) env.audioProbe v true).log)
              with tmpdirPersists := false } : JobResult).invoked
          simp only [hInv]
          simp [hvA, hvF]
        · show (({ finishTranscode env hd (some s) o v [ffprobeAudioCmd concatVobPath]
                ((if v then f.map (fun vf => "+ " ++ vf) else []) ++
                  (runCommand (ffprobeAudioCmd concatVobPath) env.audioProbe v true).log)
              with tmpdirPersists := false } : JobResult).invoked.all
              (fun c => (c.head? != some "ffmpeg") || containsSeq ["-aspect", s] c)) = true
          simp only [hInv]
          simp [List.all_cons, hallA, ffmpegCmd_head, hcs]
    · have h1' : strTruthy env.audioProbe.stdout = false := by simpa using h1
      have hc := convert_noAudio env f o v (some s) h0 h1'
      rw [hc.2.2.1]
      refine ⟨by simp [hvA], ?_⟩
      simp [List.all_cons, hallA]
  · have hc := convert_audioFail env f o v (some s) h0
    rw [hc.2.2.1]
    refine ⟨by simp [hvA], ?_⟩
    simp [List.all_cons, hallA]

/-- Witness for the C6 theorem at a concrete run with aspect 16:9. -/
theorem explicit_aspect_exact_witness :
    "16:9" ≠ "" ∧
    (ffprobeVideoCmd concatVobPath ∉
        (convertVobsToMp4 envGood ["VTS_01_1.VOB"] "out.mp4" false (some "16:9")).invoked ∧
      ((convertVobsToMp4 envGood ["VTS_01_1.VOB"] "out.mp4" false (some "16:9")).invoked.all
        (fun c => (c.head? != some "ffmpeg") || containsSeq ["-aspect", "16:9"] c)) = true) :=
  ⟨by decide,
    explicit_aspect_exact_and_no_dar_probe envGood ["VTS_01_1.VOB"] "out.mp4" false "16:9"
      (by decide)⟩

/-- C7: when no aspect override is supplied and the aspect probe succeeds
but reports no usable display aspect ratio (its output strips to the empty
string), the job does not fail because of it: the transcoder is still
invoked, with a command that is exactly the base command plus the output
file — the -aspect flag is omitted — and the job's outcome is decided by
the transcoder alone. -/
theorem dar_detection_failure_nonfatal
    (env : JobEnv) (f : List String) (o : String) (v : Bool) (a : Option String)
    (h0 : optTruthy a = false)
    (h1 : env.audioProbe.exitCode = 0)
    (h2 : strTruthy env.audioProbe.stdout = true)
    (h3 : (pySplitlines (pyStrip env.audioProbe.stdout)).isEmpty = false)
    (h4 : env.darProbe.exitCode = 0)
    (h5 : strTruthy (pyStrip env.darProbe.stdout) = false) :
    (convertVobsToMp4 env f o v a).invoked
      = [ffprobeAudioCmd concatVobPath, ffprobeVideoCmd concatVobPath,
         ffmpegBaseCmd concatVobPath
           ((pySplitlines (pyStrip env.audioProbe.stdout)).headD "") ++ [o]] ∧
    (convertVobsToMp4 env f o v a).outcome
      = (if env.transcode.exitCode == 0 then JobOutcome.success else JobOutcome.fatal) := by
  have hne : pySplitlines (pyStrip env.audioProbe.stdout) ≠ [] := by
    intro hnil
    rw [hnil] at h3
    simp at h3
  obtain ⟨hd, tl, hL⟩ := List.exists_cons_of_ne_nil hne
  have hdarFalsy : optTruthy
      (if strTruthy env.darProbe.stdout then some (pyStrip env.darProbe.stdout) else none)
      = false := by
    cases hts : strTruthy env.darProbe.stdout
    · simp [optTruthy]
    · simp [optTruthy, h5]
  have hcmd : ffmpegCmd concatVobPath hd
      (if strTruthy env.darProbe.stdout then some (pyStrip env.darProbe.stdout) else none) o
      = ffmpegBaseCmd concatVobPath hd ++ [o] := by
    simp [ffmpegCmd, hdarFalsy]
  rw [convert_darOk env f o v a hd tl h1 h2 hL h0 h4]
  have hInv := finishTranscode_invoked env hd
    (if strTruthy env.darProbe.stdout then some (pyStrip env.darProbe.stdout) else none)
    o v [ffprobeAudioCmd concatVobPath, ffprobeVideoCmd concatVobPath]
    ((if v then f.map (fun vf => "+ " ++ vf) else []) ++
      (runCommand (ffprobeAudioCmd concatVobPath) env.audioProbe v true).log ++
      (runCommand (ffprobeVideoCmd concatVobPath) env.darProbe v true).log)
  constructor
  · simp only [hInv, hcmd, hL]
    simp
  · simp [finishTranscode_outcome]

/-- Witness for the C7 theorem: the aspect probe emits only a newline. -/
theorem dar_detection_failure_nonfatal_witness :
    optTruthy none = false ∧
    strTruthy (pyStrip envDarEmpty.darProbe.stdout) = false ∧
    ((convertVobsToMp4 envDarEmpty ["VTS_01_1.VOB"] "out.mp4" false none).invoked
        = [ffprobeAudioCmd concatVobPath, ffprobeVideoCmd concatVobPath,
           ffmpegBaseCmd concatVobPath
             ((pySplitlines (pyStrip envDarEmpty.audioProbe.stdout)).headD "") ++ ["out.mp4"]] ∧
      (convertVobsToMp4 envDarEmpty ["VTS_01_1.VOB"] "out.mp4" false none).outcome
        = (if envDarEmpty.transcode.exitCode == 0 then JobOutcome.success
           else JobOutcome.fatal)) :=
  ⟨by decide, by decide,
    dar_detection_failure_nonfatal envDarEmpty ["VTS_01_1.VOB"] "out.mp4" false none
      (by decide) (by decide) (by decide) (by decide) (by decide) (by decide)⟩
